import Mathlib

set_option maxHeartbeats 1000000

/-!
Shallow embedding of the d-voise-ai quota-gated text-to-speech proxy
(src/app.py and src/main.py) and proofs about its gatekeeper, enrichment
fallback, mood presets and concurrency behaviour.

The two Python files expose the same HTTP surface; the gatekeeper block of
the /speak handler (fetch-or-create today's usage record, admission
decision, optional increment, commit) is textually identical in both.
app.py additionally runs a Gemini-based SSML enrichment step; main.py
instead applies a rule-based mood preset to the synthesis payload.

Modelling conventions:
- We fix one user and one calendar day; the persistent store is the
  committed count of today's GenerationLog row for that user
  (`Option Nat`, `none` = no row yet).
- External effects (the Gemini call, the TTS call) are oracles passed in
  as parameters; exceptions are `none` / dedicated outcome constructors.
- `db.session.add` without a following `db.session.commit` does not change
  the committed store (the session is discarded when the request returns),
  so the handler returns the committed store it leaves behind.
- The handler also returns a trace of its externally visible effects
  (the commit and the outbound network calls), in program order.
-/

/-- The PLAN_LIMITS dict, src/app.py lines 34-38 and src/main.py lines 29-33. -/
def PLAN_LIMITS : List (String × Nat) :=
  [("free", 3), ("advanced", 100), ("premium", 500)]

/-- The lookup PLAN_LIMITS.get(plan_type, 0): quota with fail-safe default 0
(src/app.py line 161, src/main.py line 128). -/
def getPlanLimit (plan : String) : Nat :=
  (PLAN_LIMITS.lookup plan).getD 0

/-- The MOOD_PRESETS dict, src/main.py lines 36-41, as exact rationals. -/
def MOOD_PRESETS : List (String × (ℚ × ℚ)) :=
  [("sad", (0.85, -4.0)), ("angry", (1.1, -2.0)),
   ("excited", (1.15, 2.0)), ("default", (1.0, 0.0))]

/-- The lookup MOOD_PRESETS.get(selected_mood, MOOD_PRESETS['default'])
(src/main.py line 142). The inner default never fires because the key
"default" is in the table. -/
def getMoodPreset (mood : String) : ℚ × ℚ :=
  (MOOD_PRESETS.lookup mood).getD ((MOOD_PRESETS.lookup "default").getD (1, 0))

/-- The input field of the TTS payload: either a text entry (main.py,
line 151) or an ssml entry (app.py, line 176). -/
inductive SpeechInput where
  | text (s : String)
  | ssml (s : String)
deriving DecidableEq

/-- The voice object of the TTS payload. -/
structure VoiceSel where
  languageCode : String
  name : String
deriving DecidableEq

/-- The audioConfig object of the TTS payload; speakingRate and pitch are
absent in app.py's payload and present in main.py's. -/
structure AudioConfig where
  audioEncoding : String
  speakingRate : Option ℚ
  pitch : Option ℚ
deriving DecidableEq

/-- A Google TTS synthesis request payload. -/
structure TtsPayload where
  input : SpeechInput
  voice : VoiceSel
  audioConfig : AudioConfig
deriving DecidableEq

/-- The payload built by src/main.py lines 140-161: mood preset selection
(data.get("mood", "default"), then MOOD_PRESETS.get with default fallback)
and placement of rate/pitch into audioConfig. -/
def buildPayloadMain (text voiceName : String) (mood : Option String) : TtsPayload :=
  let selected_mood := mood.getD "default"
  let preset := getMoodPreset selected_mood
  { input := SpeechInput.text text
    voice := { languageCode := String.intercalate "-" ((voiceName.splitOn "-").take 2)
               name := voiceName }
    audioConfig := { audioEncoding := "MP3"
                     speakingRate := some preset.1
                     pitch := some preset.2 } }

/-- Model of Python str.strip(): remove leading and trailing whitespace. -/
def pyStrip (s : String) : String :=
  ⟨((s.data.dropWhile Char.isWhitespace).reverse.dropWhile Char.isWhitespace).reverse⟩

/-- Model of Python str.startswith(pre), character-wise. -/
def pyStartsWith (s pre : String) : Bool :=
  pre.data.isPrefixOf s.data

/-- Model of Python str.endswith(suf), character-wise. -/
def pyEndsWith (s suf : String) : Bool :=
  suf.data.isSuffixOf s.data

/-- The bare fallback envelope of src/app.py lines 64, 85 and 90: the input
text put verbatim between the open and close markers. -/
def bareEnvelope (text : String) : String :=
  "<speak>" ++ text ++ "</speak>"

/-- Shallow embedding of get_emotional_ssml, src/app.py lines 59-90.
`hasGeminiKey` is the truthiness of GEMINI_API_KEY; `geminiReply` is the
oracle for model.generate_content(...).text, with `none` standing for any
raised exception (caught by the blanket except). The reply is stripped,
then checked to start with the open marker and end with the close marker;
any failure falls back to the bare envelope. -/
def get_emotional_ssml (hasGeminiKey : Bool) (geminiReply : Option String)
    (text_to_convert : String) : String :=
  if hasGeminiKey = false then
    bareEnvelope text_to_convert
  else
    match geminiReply with
    | none => bareEnvelope text_to_convert
    | some replyText =>
        let ssml_text := pyStrip replyText
        if pyStartsWith ssml_text "<speak>" && pyEndsWith ssml_text "</speak>" then
          ssml_text
        else
          bareEnvelope text_to_convert

/-- Outcome of the outbound TTS synthesis call: success, a provider HTTP
error (requests.exceptions.HTTPError), or any other exception. -/
inductive SynthOutcome where
  | ok
  | httpError
  | otherError
deriving DecidableEq

/-- Externally visible effects of one /speak call, in program order. -/
inductive Event where
  | commitEv
  | enrichCallEv
  | synthCallEv
deriving DecidableEq, BEq

/-- What one /speak call returns and leaves behind: the HTTP status, the
committed store after the call, the X-Remaining-Credits header if set, and
the effect trace. -/
structure SpeakResult where
  status : Nat
  store : Option Nat
  header : Option Int
  trace : List Event
deriving DecidableEq

namespace AppPy

/-- Shallow embedding of the /speak handler of src/app.py lines 141-200
(gatekeeper and response metadata; the audio body and payload construction
are modelled separately). `store` is the committed count of today's row
(`none` = no row). Fetch-or-create reads count 0 when the row is absent
(line 158); the deny branch (line 165) returns before db.session.commit()
(line 170), so it leaves the committed store unchanged; every other branch
commits exactly once, then calls get_emotional_ssml (a Gemini network call
only when the key is present) and the TTS endpoint. The header is
current_limit - log.count after the conditional increment (line 194). -/
def speak (plan : String) (adProof : Bool) (hasGeminiKey : Bool)
    (synth : SynthOutcome) (store : Option Nat) : SpeakResult :=
  let count := store.getD 0
  let current_limit := getPlanLimit plan
  let remaining_credits : Int := (current_limit : Int) - (count : Int)
  if remaining_credits ≤ 0 ∧ adProof = false then
    { status := 429, store := store, header := none, trace := [] }
  else
    let newCount := if remaining_credits > 0 then count + 1 else count
    let tr := Event.commitEv ::
      ((if hasGeminiKey then [Event.enrichCallEv] else []) ++ [Event.synthCallEv])
    match synth with
    | SynthOutcome.ok =>
        { status := 200, store := some newCount
          header := some ((current_limit : Int) - (newCount : Int)), trace := tr }
    | SynthOutcome.httpError =>
        { status := 500, store := some newCount, header := none, trace := tr }
    | SynthOutcome.otherError =>
        { status := 500, store := some newCount, header := none, trace := tr }

/-- The committed store left by one app.py /speak call. -/
def gateStep (plan : String) (adProof : Bool) (hasGeminiKey : Bool)
    (synth : SynthOutcome) (store : Option Nat) : Option Nat :=
  (speak plan adProof hasGeminiKey synth store).store

end AppPy

namespace MainPy

/-- Shallow embedding of the /speak handler of src/main.py lines 108-178.
The gatekeeper block (lines 120-137) is textually identical to app.py's;
there is no enrichment call, so the only network call is the TTS request.
The header is current_limit - log.count after the conditional increment
(line 172). -/
def speak (plan : String) (adProof : Bool)
    (synth : SynthOutcome) (store : Option Nat) : SpeakResult :=
  let count := store.getD 0
  let current_limit := getPlanLimit plan
  let remaining_credits : Int := (current_limit : Int) - (count : Int)
  if remaining_credits ≤ 0 ∧ adProof = false then
    { status := 429, store := store, header := none, trace := [] }
  else
    let newCount := if remaining_credits > 0 then count + 1 else count
    let tr := [Event.commitEv, Event.synthCallEv]
    match synth with
    | SynthOutcome.ok =>
        { status := 200, store := some newCount
          header := some ((current_limit : Int) - (newCount : Int)), trace := tr }
    | SynthOutcome.httpError =>
        { status := 500, store := some newCount, header := none, trace := tr }
    | SynthOutcome.otherError =>
        { status := 500, store := some newCount, header := none, trace := tr }

/-- The committed store left by one main.py /speak call. -/
def gateStep (plan : String) (adProof : Bool)
    (synth : SynthOutcome) (store : Option Nat) : Option Nat :=
  (speak plan adProof synth store).store

end MainPy

/-!
Interleaving model of concurrent /speak gatekeeper executions.

Each request performs two separate operations on the shared store (there is
no lock, atomic increment or compare-and-swap in the code): the fetch of
today's row (src/app.py line 155, src/main.py line 122) and the commit of
the session (src/app.py line 170, src/main.py line 137). The admission
decision and the increment use only the count read at fetch time; a denied
request returns before the commit and performs no write. A schedule is a
list of these operations for two requests of the same user on the same day.
-/

/-- One store operation of one of two concurrent /speak requests. -/
inductive ConcStep where
  | fetch (i : Fin 2)
  | commit (i : Fin 2)
deriving DecidableEq

/-- Shared store plus per-request local state: the count each request
fetched, and the HTTP status each finished request returned. -/
structure ConcState where
  store : Option Nat
  fetched : Fin 2 → Option Nat
  status : Fin 2 → Option Nat

/-- Effect of one store operation. A fetch reads the current committed
count (0 when the row is absent, matching the lazily created row of
src/main.py line 125). A commit runs the decision of src/main.py
lines 128-137 on the count fetched earlier: deny leaves the store
untouched, otherwise the session writes back the locally incremented
count, overwriting the shared row. -/
def concStep (plan : String) (adProof : Bool) (st : ConcState) : ConcStep → ConcState
  | ConcStep.fetch i =>
      { st with fetched := Function.update st.fetched i (some (st.store.getD 0)) }
  | ConcStep.commit i =>
      match st.fetched i with
      | none => st
      | some count =>
          let current_limit := getPlanLimit plan
          let remaining_credits : Int := (current_limit : Int) - (count : Int)
          if remaining_credits ≤ 0 ∧ adProof = false then
            { st with status := Function.update st.status i (some 429) }
          else
            { st with
                store := some (if remaining_credits > 0 then count + 1 else count)
                status := Function.update st.status i (some 200) }

/-- Run a schedule of interleaved store operations from an initial store. -/
def concRun (plan : String) (adProof : Bool) (s0 : Option Nat)
    (sched : List ConcStep) : ConcState :=
  sched.foldl (concStep plan adProof)
    { store := s0, fetched := fun _ => none, status := fun _ => none }

lemma mainSpeak_deny (plan : String) (synth : SynthOutcome) (s : Option Nat)
    (h : getPlanLimit plan ≤ s.getD 0) :
    MainPy.speak plan false synth s = ⟨429, s, none, []⟩ := by
  simp only [MainPy.speak]
  split
  · rfl
  · rename_i hneg
    exact absurd ⟨by omega, by trivial⟩ hneg

lemma mainSpeak_increments (plan : String) (adProof : Bool) (synth : SynthOutcome) (s : Option Nat)
    (h : s.getD 0 < getPlanLimit plan) :
    (MainPy.speak plan adProof synth s).status ≠ 429 ∧
    (MainPy.speak plan adProof synth s).store = some (s.getD 0 + 1) := by
  simp only [MainPy.speak]
  split
  · rename_i hc
    obtain ⟨hle, -⟩ := hc
    exfalso
    omega
  · have hpos : (0 : Int) < (getPlanLimit plan : Int) - (s.getD 0 : Int) := by omega
    rw [if_pos hpos]
    cases synth <;> simp

lemma mainSpeak_no_deny_ad (plan : String) (synth : SynthOutcome) (s : Option Nat) :
    (MainPy.speak plan true synth s).status ≠ 429 := by
  simp only [MainPy.speak]
  split
  · rename_i hc
    simp at hc
  · have : ∀ c : Nat, (match synth with
      | SynthOutcome.ok => 200
      | SynthOutcome.httpError => 500
      | SynthOutcome.otherError => 500) ≠ 429 := by cases synth <;> simp
    cases synth <;> simp

lemma speak_agree (plan : String) (adProof key : Bool) (synth : SynthOutcome) (s : Option Nat) :
    (AppPy.speak plan adProof key synth s).status = (MainPy.speak plan adProof synth s).status ∧
    (AppPy.speak plan adProof key synth s).store = (MainPy.speak plan adProof synth s).store ∧
    (AppPy.speak plan adProof key synth s).header = (MainPy.speak plan adProof synth s).header := by
  simp only [AppPy.speak, MainPy.speak]
  split
  · exact ⟨rfl, rfl, rfl⟩
  · cases synth <;> exact ⟨rfl, rfl, rfl⟩

lemma mainSpeak_bypass_store (plan : String) (synth : SynthOutcome) (s : Option Nat)
    (h : getPlanLimit plan ≤ s.getD 0) :
    (MainPy.speak plan true synth s).store = some (s.getD 0) := by
  simp only [MainPy.speak]
  split
  · rename_i hc
    simp at hc
  · rw [if_neg (by omega : ¬ (0 : Int) < (getPlanLimit plan : Int) - (s.getD 0 : Int))]
    cases synth <;> simp

/-- C10: for every identical input (plan tier, today's count or absence of a
record, ad-proof presence, synthesis outcome), the /speak handlers of
src/app.py and src/main.py produce the same admission decision (HTTP
status), the same resulting committed count, and the same
X-Remaining-Credits header. -/
theorem speak_variants_agree (plan : String) (adProof key : Bool)
    (synth : SynthOutcome) (s : Option Nat) :
    (AppPy.speak plan adProof key synth s).status = (MainPy.speak plan adProof synth s).status ∧
    (AppPy.speak plan adProof key synth s).store = (MainPy.speak plan adProof synth s).store ∧
    (AppPy.speak plan adProof key synth s).header = (MainPy.speak plan adProof synth s).header :=
  speak_agree plan adProof key synth s

/-- C2: a /speak call with an ad proof token present is never denied with
429, whatever the remaining count; and whenever remaining is not positive
at call time (quota at most the current count), the bypassed call leaves
the usage count unchanged, in both source variants. -/
theorem ad_bypass_always_admits (plan : String) (key : Bool)
    (synth : SynthOutcome) (s : Option Nat) :
    ((MainPy.speak plan true synth s).status ≠ 429 ∧
      (getPlanLimit plan ≤ s.getD 0 →
        ((MainPy.speak plan true synth s).store).getD 0 = s.getD 0)) ∧
    ((AppPy.speak plan true key synth s).status ≠ 429 ∧
      (getPlanLimit plan ≤ s.getD 0 →
        ((AppPy.speak plan true key synth s).store).getD 0 = s.getD 0)) := by
  have hm1 := mainSpeak_no_deny_ad plan synth s
  have ha := speak_agree plan true key synth s
  refine ⟨⟨hm1, ?_⟩, ?_, ?_⟩
  · intro h
    rw [mainSpeak_bypass_store plan synth s h]
    rfl
  · rw [ha.1]
    exact hm1
  · intro h
    rw [ha.2.1, mainSpeak_bypass_store plan synth s h]
    rfl

theorem ad_bypass_always_admits_witness :
    getPlanLimit "free" ≤ (some 3 : Option Nat).getD 0 ∧
    (MainPy.speak "free" true SynthOutcome.ok (some 3)).status ≠ 429 ∧
    ((MainPy.speak "free" true SynthOutcome.ok (some 3)).store).getD 0
      = (some 3 : Option Nat).getD 0 :=
  ⟨by decide, (ad_bypass_always_admits "free" false SynthOutcome.ok (some 3)).1.1,
    (ad_bypass_always_admits "free" false SynthOutcome.ok (some 3)).1.2 (by decide)⟩

/-- C4: a plan tier absent from the plan catalog resolves to quota 0
without throwing, so every /speak call by such a user is denied with 429
unless an ad proof token is present, in both source variants. -/
theorem unknown_plan_denied (plan : String) (h : PLAN_LIMITS.lookup plan = none) :
    getPlanLimit plan = 0 ∧
    ∀ (s : Option Nat) (synth : SynthOutcome) (key : Bool),
      (MainPy.speak plan false synth s).status = 429 ∧
      (MainPy.speak plan true synth s).status ≠ 429 ∧
      (AppPy.speak plan false key synth s).status = 429 ∧
      (AppPy.speak plan true key synth s).status ≠ 429 := by
  have h0 : getPlanLimit plan = 0 := by simp [getPlanLimit, h]
  refine ⟨h0, fun s synth key => ?_⟩
  have hd : MainPy.speak plan false synth s = ⟨429, s, none, []⟩ :=
    mainSpeak_deny plan synth s (by omega)
  refine ⟨by rw [hd], mainSpeak_no_deny_ad plan synth s, ?_, ?_⟩
  · rw [(speak_agree plan false key synth s).1, hd]
  · rw [(speak_agree plan true key synth s).1]
    exact mainSpeak_no_deny_ad plan synth s

theorem unknown_plan_denied_witness :
    PLAN_LIMITS.lookup "gold" = none ∧
    getPlanLimit "gold" = 0 ∧
    (MainPy.speak "gold" false SynthOutcome.ok none).status = 429 :=
  ⟨by decide, (unknown_plan_denied "gold" (by decide)).1,
    ((unknown_plan_denied "gold" (by decide)).2 none SynthOutcome.ok false).1⟩

lemma gateStep_iter_count (plan : String) (q : Nat) (synth : SynthOutcome)
    (hq : getPlanLimit plan = q) :
    ∀ i, i ≤ q → ((MainPy.gateStep plan false synth)^[i] none).getD 0 = i := by
  intro i
  induction i with
  | zero => intro _; rfl
  | succ n ih =>
      intro hle
      have hn := ih (by omega)
      have hlt : ((MainPy.gateStep plan false synth)^[n] none).getD 0 < getPlanLimit plan := by
        omega
      rw [Function.iterate_succ_apply']
      show ((MainPy.speak plan false synth _).store).getD 0 = n + 1
      rw [(mainSpeak_increments plan false synth _ hlt).2, hn]
      rfl

/-- C1: for a plan tier with catalog quota q, starting from no usage record,
each of the first q same-day /speak calls without ad proof is admitted
(status is not 429); after those q calls the count is exactly q, and the
next call without ad proof is denied with 429 and leaves the committed
record unchanged — in both source variants. -/
theorem quota_exhaustion (plan : String) (q : Nat) (synth : SynthOutcome) (key : Bool)
    (hq : PLAN_LIMITS.lookup plan = some q) :
    (∀ i, i < q →
      (MainPy.speak plan false synth ((MainPy.gateStep plan false synth)^[i] none)).status ≠ 429 ∧
      (AppPy.speak plan false key synth
        ((AppPy.gateStep plan false key synth)^[i] none)).status ≠ 429) ∧
    ((MainPy.gateStep plan false synth)^[q] none).getD 0 = q ∧
    (MainPy.speak plan false synth ((MainPy.gateStep plan false synth)^[q] none)).status = 429 ∧
    (MainPy.speak plan false synth ((MainPy.gateStep plan false synth)^[q] none)).store
      = (MainPy.gateStep plan false synth)^[q] none ∧
    ((AppPy.gateStep plan false key synth)^[q] none).getD 0 = q ∧
    (AppPy.speak plan false key synth ((AppPy.gateStep plan false key synth)^[q] none)).status
      = 429 ∧
    (AppPy.speak plan false key synth ((AppPy.gateStep plan false key synth)^[q] none)).store
      = (AppPy.gateStep plan false key synth)^[q] none := by
  have hq0 : getPlanLimit plan = q := by simp [getPlanLimit, hq]
  have hg : AppPy.gateStep plan false key synth = MainPy.gateStep plan false synth :=
    funext fun s => (speak_agree plan false key synth s).2.1
  have hiter := gateStep_iter_count plan q synth hq0
  have hdeny : MainPy.speak plan false synth ((MainPy.gateStep plan false synth)^[q] none)
      = ⟨429, (MainPy.gateStep plan false synth)^[q] none, none, []⟩ :=
    mainSpeak_deny plan synth _ (by have := hiter q le_rfl; omega)
  refine ⟨fun i hi => ?_, hiter q le_rfl, by rw [hdeny], by rw [hdeny], ?_, ?_, ?_⟩
  · have hlt : ((MainPy.gateStep plan false synth)^[i] none).getD 0 < getPlanLimit plan := by
      have := hiter i (by omega)
      omega
    refine ⟨(mainSpeak_increments plan false synth _ hlt).1, ?_⟩
    rw [hg, (speak_agree plan false key synth _).1]
    exact (mainSpeak_increments plan false synth _ hlt).1
  · rw [hg]
    exact hiter q le_rfl
  · rw [hg, (speak_agree plan false key synth _).1, hdeny]
  · rw [hg, (speak_agree plan false key synth _).2.1, hdeny]

theorem quota_exhaustion_witness :
    PLAN_LIMITS.lookup "free" = some 3 ∧
    ((MainPy.gateStep "free" false SynthOutcome.ok)^[3] none).getD 0 = 3 ∧
    (MainPy.speak "free" false SynthOutcome.ok
      ((MainPy.gateStep "free" false SynthOutcome.ok)^[3] none)).status = 429 :=
  ⟨by decide, (quota_exhaustion "free" 3 SynthOutcome.ok false (by decide)).2.1,
    (quota_exhaustion "free" 3 SynthOutcome.ok false (by decide)).2.2.1⟩

/-- C6: for a new free-plan user (quota 3) with no record yet, three
successive same-day /speak calls succeed with X-Remaining-Credits 2, 1, 0
(limit minus count after the increment), and the fourth same-day call
without an ad proof token returns 429 — in both source variants. -/
theorem free_plan_headers :
    ((MainPy.speak "free" false SynthOutcome.ok none).status = 200 ∧
     (MainPy.speak "free" false SynthOutcome.ok none).header = some 2 ∧
     (MainPy.speak "free" false SynthOutcome.ok none).store = some 1) ∧
    ((MainPy.speak "free" false SynthOutcome.ok (some 1)).status = 200 ∧
     (MainPy.speak "free" false SynthOutcome.ok (some 1)).header = some 1 ∧
     (MainPy.speak "free" false SynthOutcome.ok (some 1)).store = some 2) ∧
    ((MainPy.speak "free" false SynthOutcome.ok (some 2)).status = 200 ∧
     (MainPy.speak "free" false SynthOutcome.ok (some 2)).header = some 0 ∧
     (MainPy.speak "free" false SynthOutcome.ok (some 2)).store = some 3) ∧
    ((MainPy.speak "free" false SynthOutcome.ok (some 3)).status = 429 ∧
     (MainPy.speak "free" false SynthOutcome.ok (some 3)).store = some 3) ∧
    ((AppPy.speak "free" false false SynthOutcome.ok none).status = 200 ∧
     (AppPy.speak "free" false false SynthOutcome.ok none).header = some 2 ∧
     (AppPy.speak "free" false false SynthOutcome.ok none).store = some 1) ∧
    ((AppPy.speak "free" false false SynthOutcome.ok (some 1)).status = 200 ∧
     (AppPy.speak "free" false false SynthOutcome.ok (some 1)).header = some 1 ∧
     (AppPy.speak "free" false false SynthOutcome.ok (some 1)).store = some 2) ∧
    ((AppPy.speak "free" false false SynthOutcome.ok (some 2)).status = 200 ∧
     (AppPy.speak "free" false false SynthOutcome.ok (some 2)).header = some 0 ∧
     (AppPy.speak "free" false false SynthOutcome.ok (some 2)).store = some 3) ∧
    ((AppPy.speak "free" false false SynthOutcome.ok (some 3)).status = 429 ∧
     (AppPy.speak "free" false false SynthOutcome.ok (some 3)).store = some 3) := by
  decide

/-- C3 counterexample: a usage record lazily created during a call whose
outcome is Deny is NOT durably persisted — both /speak handlers return 429
before db.session.commit(), so the committed store still has no record and
no commit appears in the effect trace. -/
theorem deny_skips_persist_cex :
    (MainPy.speak "gold" false SynthOutcome.ok none).status = 429 ∧
    (MainPy.speak "gold" false SynthOutcome.ok none).store = none ∧
    (MainPy.speak "gold" false SynthOutcome.ok none).trace.count Event.commitEv = 0 ∧
    (AppPy.speak "gold" false true SynthOutcome.ok none).status = 429 ∧
    (AppPy.speak "gold" false true SynthOutcome.ok none).store = none := by
  decide

/-- C3 amended: the usage record is persisted (committed) exactly once per
call on the admit and bypass branches; on the deny branch the handler
returns before the commit, so nothing is persisted and the committed store
is unchanged — in both source variants. -/
theorem persist_per_branch (plan : String) (adProof key : Bool)
    (synth : SynthOutcome) (s : Option Nat) :
    (((MainPy.speak plan adProof synth s).status ≠ 429 →
        (MainPy.speak plan adProof synth s).trace.count Event.commitEv = 1 ∧
        (MainPy.speak plan adProof synth s).store.isSome = true) ∧
     ((MainPy.speak plan adProof synth s).status = 429 →
        (MainPy.speak plan adProof synth s).trace.count Event.commitEv = 0 ∧
        (MainPy.speak plan adProof synth s).store = s)) ∧
    (((AppPy.speak plan adProof key synth s).status ≠ 429 →
        (AppPy.speak plan adProof key synth s).trace.count Event.commitEv = 1 ∧
        (AppPy.speak plan adProof key synth s).store.isSome = true) ∧
     ((AppPy.speak plan adProof key synth s).status = 429 →
        (AppPy.speak plan adProof key synth s).trace.count Event.commitEv = 0 ∧
        (AppPy.speak plan adProof key synth s).store = s)) := by
  simp only [MainPy.speak, AppPy.speak]
  constructor
  · split
    · simp
    · cases synth <;> simp [List.count_cons] <;> decide
  · split
    · simp
    · cases synth <;> cases key <;> simp [List.count_cons, List.count_append] <;> decide

theorem persist_per_branch_witness :
    (MainPy.speak "free" false SynthOutcome.ok none).status ≠ 429 ∧
    (MainPy.speak "free" false SynthOutcome.ok none).trace.count Event.commitEv = 1 ∧
    (MainPy.speak "free" false SynthOutcome.ok none).store.isSome = true :=
  ⟨by decide, ((persist_per_branch "free" false false SynthOutcome.ok none).1.1 (by decide)).1,
    ((persist_per_branch "free" false false SynthOutcome.ok none).1.1 (by decide)).2⟩

/-- C8: the mood preset lookup maps sad to (0.85, -4.0), angry to
(1.1, -2.0), excited to (1.15, 2.0) and default to (1.0, 0.0); any mood
name absent from the table falls back to the default pair; and the
selected rate and pitch are placed in the synthesis payload's audioConfig
by the main.py payload builder. -/
theorem mood_preset_table (m : String) (hm : MOOD_PRESETS.lookup m = none) :
    getMoodPreset "sad" = (0.85, -4.0) ∧
    getMoodPreset "angry" = (1.1, -2.0) ∧
    getMoodPreset "excited" = (1.15, 2.0) ∧
    getMoodPreset "default" = (1.0, 0.0) ∧
    getMoodPreset m = (1.0, 0.0) ∧
    (∀ (mood : Option String) (text voiceName : String),
      (buildPayloadMain text voiceName mood).audioConfig.speakingRate
        = some (getMoodPreset (mood.getD "default")).1 ∧
      (buildPayloadMain text voiceName mood).audioConfig.pitch
        = some (getMoodPreset (mood.getD "default")).2) := by
  refine ⟨by rfl, by rfl, by rfl, by rfl, ?_, fun mood text voiceName => ⟨rfl, rfl⟩⟩
  unfold getMoodPreset
  rw [hm]
  rfl

theorem mood_preset_table_witness :
    MOOD_PRESETS.lookup "curious" = none ∧
    getMoodPreset "curious" = (1.0, 0.0) :=
  ⟨by decide, (mood_preset_table "curious" (by decide)).2.2.2.2.1⟩

/-- C5: get_emotional_ssml is total and never fails outward: if the Gemini
credential is absent, or the call raises (reply oracle none), or the
stripped reply does not both start with the open marker and end with the
close marker, it returns the input wrapped verbatim in the bare envelope;
otherwise it returns the service's (stripped) reply. -/
theorem enrich_total_fallback (text : String) (hasKey : Bool) (reply : Option String) :
    (hasKey = false → get_emotional_ssml hasKey reply text = bareEnvelope text) ∧
    (reply = none → get_emotional_ssml hasKey reply text = bareEnvelope text) ∧
    (∀ r, reply = some r →
      ((pyStartsWith (pyStrip r) "<speak>" && pyEndsWith (pyStrip r) "</speak>") = false →
        get_emotional_ssml hasKey reply text = bareEnvelope text) ∧
      (hasKey = true →
        (pyStartsWith (pyStrip r) "<speak>" && pyEndsWith (pyStrip r) "</speak>") = true →
        get_emotional_ssml hasKey reply text = pyStrip r)) ∧
    bareEnvelope text = "<speak>" ++ text ++ "</speak>" := by
  refine ⟨?_, ?_, ?_, rfl⟩
  · intro h
    subst h
    simp [get_emotional_ssml]
  · intro h
    subst h
    cases hasKey <;> simp [get_emotional_ssml]
  · intro r hr
    subst hr
    constructor
    · intro hbad
      cases hasKey
      · simp [get_emotional_ssml]
      · simp [get_emotional_ssml, hbad]
    · intro hk hgood
      subst hk
      simp [get_emotional_ssml, hgood]

theorem enrich_total_fallback_witness :
    get_emotional_ssml false none "hello" = bareEnvelope "hello" :=
  (enrich_total_fallback "hello" false none).1 rfl

/-- C7: for every admitted /speak call, the commit of the quota increment
is the first externally visible effect — it precedes every outbound
network call in the effect trace and occurs exactly once — and a synthesis
failure does not roll it back: the committed store after a failed
synthesis equals the one after a successful synthesis, in both source
variants. -/
theorem commit_before_network (plan : String) (adProof key : Bool)
    (synth : SynthOutcome) (s : Option Nat)
    (h : (MainPy.speak plan adProof synth s).status ≠ 429) :
    ((MainPy.speak plan adProof synth s).trace.head? = some Event.commitEv ∧
     Event.commitEv ∉ (MainPy.speak plan adProof synth s).trace.tail ∧
     (MainPy.speak plan adProof synth s).store
       = (MainPy.speak plan adProof SynthOutcome.ok s).store) ∧
    ((AppPy.speak plan adProof key synth s).trace.head? = some Event.commitEv ∧
     Event.commitEv ∉ (AppPy.speak plan adProof key synth s).trace.tail ∧
     (AppPy.speak plan adProof key synth s).store
       = (AppPy.speak plan adProof key SynthOutcome.ok s).store) := by
  by_cases hc : ((getPlanLimit plan : Int) - (s.getD 0 : Int) ≤ 0 ∧ adProof = false)
  · exfalso
    apply h
    simp only [MainPy.speak, if_pos hc]
  · constructor
    · simp only [MainPy.speak, if_neg hc]
      cases synth <;> refine ⟨rfl, ?_, rfl⟩ <;> simp
    · simp only [AppPy.speak, if_neg hc]
      cases synth <;> cases key <;> refine ⟨rfl, ?_, rfl⟩ <;> simp

theorem commit_before_network_witness :
    (MainPy.speak "free" false SynthOutcome.httpError none).status ≠ 429 ∧
    (MainPy.speak "free" false SynthOutcome.httpError none).trace.head? = some Event.commitEv ∧
    (MainPy.speak "free" false SynthOutcome.httpError none).store
      = (MainPy.speak "free" false SynthOutcome.ok none).store :=
  ⟨by decide,
    (commit_before_network "free" false false SynthOutcome.httpError none (by decide)).1.1,
    (commit_before_network "free" false false SynthOutcome.httpError none (by decide)).1.2.2⟩

/-- C9: the fetch-or-create-then-increment sequence does NOT serialize its
read-modify-write. Two concurrent admitted requests for one (user, day)
whose fetches both complete before either commit are both admitted
(status 200) yet leave a final count of 1, not count_before + 2 = 2: one
increment is lost. The same two requests run back to back do yield 2. -/
theorem conc_lost_update :
    ((concRun "free" false none
        [ConcStep.fetch 0, ConcStep.fetch 1, ConcStep.commit 0, ConcStep.commit 1]).status 0
      = some 200) ∧
    ((concRun "free" false none
        [ConcStep.fetch 0, ConcStep.fetch 1, ConcStep.commit 0, ConcStep.commit 1]).status 1
      = some 200) ∧
    ((concRun "free" false none
        [ConcStep.fetch 0, ConcStep.fetch 1, ConcStep.commit 0, ConcStep.commit 1]).store
      = some 1) ∧
    ((concRun "free" false none
        [ConcStep.fetch 0, ConcStep.commit 0, ConcStep.fetch 1, ConcStep.commit 1]).store
      = some 2) := by
  decide
